import Mathlib

/-!
Shallow embedding of `src/relay/op/nn/convolution_make.h` (moderato/incubator-tvm):
the six convolution call-node builder functions
`MakeConv`, `MakeFusedConv2D`, `MakeConvWinograd`, `MakeConvGemm`,
`MakeConvTranspose`, `MakeDeformableConv`, together with the data they
construct (attribute records, call nodes) and the operator-registry lookup
`Op::Get` they perform.

Modelling conventions:
* `IndexExpr` (a TVM symbolic index expression) is modelled as `Int`; the
  builders never inspect these values, they only store them.
* `DataType` is modelled as a string tag (the builders only store it).
* Input expressions (`Expr` arguments such as `data`, `weight`) are opaque
  values that the builders thread into the call node unchanged; the `Expr`
  inductive below has a `var` constructor for such opaque inputs and a
  `call` constructor for the node the builders return.
* The process-wide operator registry behind `Op::Get` is passed explicitly
  as a read-only list of registered names; `Op.Get` returns `none` where
  the C++ `Op::Get` throws its unknown-operator error, so every builder
  returns `Option Expr`: `none` exactly when the lookup fails.
* Each C++ builder is a template over the attribute-record type `T`; in
  this repository each variant instantiates `T` at its own concrete record
  type, so each embedded builder populates the corresponding concrete
  record below and wraps it in the type-erased `AttrsData` (the embedding
  of TVM `Attrs(attrs)`).
-/

namespace ConvolutionMake

/-- TVM `IndexExpr` (symbolic index expression); opaque to the builders,
modelled as `Int`. -/
abbrev IndexExpr := Int

/-- TVM `DataType`; opaque to the builders, modelled as a string tag. -/
abbrev DataType := String

/-- TVM `Integer` (boxed integer used in `Array<Integer>`). -/
abbrev Integer := Int

/-- Attribute record populated by `MakeConv` / `MakeConvGemm`
(the `Conv2DAttrs`-shaped field set assigned at lines 44-53 / 120-129 of
`convolution_make.h`), fields in assignment order. -/
structure Conv2DAttrs where
  strides : List IndexExpr
  padding : List IndexExpr
  dilation : List IndexExpr
  groups : Int
  channels : IndexExpr
  kernel_size : List IndexExpr
  data_layout : String
  kernel_layout : String
  out_layout : String
  out_dtype : DataType
deriving DecidableEq

/-- Attribute record populated by `MakeConvWinograd` (lines 98-108):
the extra `tile_size` field is placed first, before the fields shared
with `Conv2DAttrs`. -/
structure Conv2DWinogradAttrs where
  tile_size : Int
  strides : List IndexExpr
  padding : List IndexExpr
  dilation : List IndexExpr
  groups : Int
  channels : IndexExpr
  kernel_size : List IndexExpr
  data_layout : String
  kernel_layout : String
  out_layout : String
  out_dtype : DataType
deriving DecidableEq

/-- Attribute record populated by `MakeConvTranspose` (lines 142-152):
the extra `output_padding` field sits after the standard fields and
before `out_dtype`. -/
structure Conv2DTransposeAttrs where
  strides : List IndexExpr
  padding : List IndexExpr
  dilation : List IndexExpr
  groups : Int
  channels : IndexExpr
  kernel_size : List IndexExpr
  data_layout : String
  kernel_layout : String
  out_layout : String
  output_padding : List IndexExpr
  out_dtype : DataType
deriving DecidableEq

/-- Attribute record populated by `MakeDeformableConv` (lines 165-175):
note the weaker typing of this variant, `channels` is a plain `int`. -/
structure DeformableConv2DAttrs where
  strides : List IndexExpr
  padding : List IndexExpr
  dilation : List IndexExpr
  deformable_groups : Int
  groups : Int
  channels : Int
  kernel_size : List IndexExpr
  data_layout : String
  kernel_layout : String
  out_layout : String
  out_dtype : DataType
deriving DecidableEq

/-- Attribute record populated by `MakeFusedConv2D` (lines 75-86):
per-layer parallel arrays plus the fixed layer count. -/
structure FusedConv2DAttrs where
  num_layers : Int
  strides_array : List (List IndexExpr)
  padding_array : List (List IndexExpr)
  dilation_array : List (List IndexExpr)
  groups_array : List Integer
  channels_array : List IndexExpr
  kernel_size_array : List (List IndexExpr)
  post_op_array : List String
  data_layout_array : List String
  kernel_layout_array : List String
  out_layout_array : List String
  out_dtype : DataType
deriving DecidableEq

/-- The type-erased attribute payload carried by a call node: the embedding
of TVM `Attrs(attrs)`, one constructor per concrete record type this core
instantiates. -/
inductive AttrsData where
  | conv2d (a : Conv2DAttrs)
  | conv2dWinograd (a : Conv2DWinogradAttrs)
  | conv2dTranspose (a : Conv2DTransposeAttrs)
  | deformableConv2d (a : DeformableConv2DAttrs)
  | fusedConv2d (a : FusedConv2DAttrs)
deriving DecidableEq

/-- An operator descriptor: registered, process-wide, identified by its
name; opaque beyond the name from this core's point of view. -/
structure Op where
  name : String
deriving DecidableEq

/-- The read-only operator registry: the set of registered operator names,
passed explicitly to each builder (the C++ accesses it through the global
`Op::Get`). -/
abbrev OpRegistry := List String

/-- `Op::Get(op_name)`: registry lookup by name.  The C++ throws an
unknown-operator error when the name is unregistered; the embedding
returns `none` there. -/
def Op.Get (reg : OpRegistry) (op_name : String) : Option Op :=
  if op_name ∈ reg then some ⟨op_name⟩ else none

/-- IR expressions: opaque input values (`var`) and the call nodes the
builders construct (`call op args attrs type_args`, the embedding of
`Call(op, {...}, Attrs(attrs), {})`). -/
inductive Expr where
  | var (name : String)
  | call (op : Op) (args : List Expr) (attrs : AttrsData) (type_args : List String)

/-- The positional input sequence bound into a call node (empty for a
non-call). -/
def Expr.args : Expr → List Expr
  | .var _ => []
  | .call _ as _ _ => as

/-- The type-argument sequence of a call node (empty for a non-call). -/
def Expr.type_args : Expr → List String
  | .var _ => []
  | .call _ _ _ ts => ts

/-- The operator descriptor referenced by a call node. -/
def Expr.opOf : Expr → Option Op
  | .var _ => none
  | .call op _ _ _ => some op

/-- The attribute payload of a call node. -/
def Expr.attrsOf : Expr → Option AttrsData
  | .var _ => none
  | .call _ _ a _ => some a

/-- `MakeConv` (lines 37-56): populate a `Conv2DAttrs` record field by
field from the arguments, resolve the operator by name, and return
`Call(op, {data, weight}, Attrs(attrs), {})`; `none` when the lookup
fails. -/
def MakeConv (data weight : Expr) (strides padding dilation : List IndexExpr)
    (groups : Int) (channels : IndexExpr) (kernel_size : List IndexExpr)
    (data_layout kernel_layout out_layout : String) (out_dtype : DataType)
    (op_name : String) (reg : OpRegistry) : Option Expr :=
  let attrs : Conv2DAttrs :=
    { strides := strides, padding := padding, dilation := dilation,
      groups := groups, channels := channels, kernel_size := kernel_size,
      data_layout := data_layout, kernel_layout := kernel_layout,
      out_layout := out_layout, out_dtype := out_dtype }
  (Op.Get reg op_name).map fun op =>
    Expr.call op [data, weight] (AttrsData.conv2d attrs) []

/-- `MakeFusedConv2D` (lines 58-89): `num_layers` is hard-wired to 2, the
per-layer arrays are stored as given, and the call node binds the five
inputs `{data, weight1, bias1, weight2, bias2}`. -/
def MakeFusedConv2D (data weight1 bias1 weight2 bias2 : Expr)
    (strides_array padding_array dilation_array : List (List IndexExpr))
    (groups_array : List Integer) (channels_array : List IndexExpr)
    (kernel_size_array : List (List IndexExpr))
    (post_op_array data_layout_array kernel_layout_array out_layout_array : List String)
    (out_dtype : DataType) (op_name : String) (reg : OpRegistry) : Option Expr :=
  let fused_conv2d_attrs : FusedConv2DAttrs :=
    { num_layers := 2, strides_array := strides_array,
      padding_array := padding_array, dilation_array := dilation_array,
      groups_array := groups_array, channels_array := channels_array,
      kernel_size_array := kernel_size_array, post_op_array := post_op_array,
      data_layout_array := data_layout_array,
      kernel_layout_array := kernel_layout_array,
      out_layout_array := out_layout_array, out_dtype := out_dtype }
  (Op.Get reg op_name).map fun op =>
    Expr.call op [data, weight1, bias1, weight2, bias2]
      (AttrsData.fusedConv2d fused_conv2d_attrs) []

/-- `MakeConvWinograd` (lines 91-111): like `MakeConv` with the extra
`tile_size` field assigned first. -/
def MakeConvWinograd (data weight : Expr) (tile_size : Int)
    (strides padding dilation : List IndexExpr) (groups : Int)
    (channels : IndexExpr) (kernel_size : List IndexExpr)
    (data_layout kernel_layout out_layout : String) (out_dtype : DataType)
    (op_name : String) (reg : OpRegistry) : Option Expr :=
  let attrs : Conv2DWinogradAttrs :=
    { tile_size := tile_size, strides := strides, padding := padding,
      dilation := dilation, groups := groups, channels := channels,
      kernel_size := kernel_size, data_layout := data_layout,
      kernel_layout := kernel_layout, out_layout := out_layout,
      out_dtype := out_dtype }
  (Op.Get reg op_name).map fun op =>
    Expr.call op [data, weight] (AttrsData.conv2dWinograd attrs) []

/-- `MakeConvGemm` (lines 113-132): textually the same construction as
`MakeConv` (same field set, same two inputs), under a different name. -/
def MakeConvGemm (data weight : Expr) (strides padding dilation : List IndexExpr)
    (groups : Int) (channels : IndexExpr) (kernel_size : List IndexExpr)
    (data_layout kernel_layout out_layout : String) (out_dtype : DataType)
    (op_name : String) (reg : OpRegistry) : Option Expr :=
  let attrs : Conv2DAttrs :=
    { strides := strides, padding := padding, dilation := dilation,
      groups := groups, channels := channels, kernel_size := kernel_size,
      data_layout := data_layout, kernel_layout := kernel_layout,
      out_layout := out_layout, out_dtype := out_dtype }
  (Op.Get reg op_name).map fun op =>
    Expr.call op [data, weight] (AttrsData.conv2d attrs) []

/-- `MakeConvTranspose` (lines 134-155): like `MakeConv` with the extra
`output_padding` field assigned after `out_layout` and before
`out_dtype`. -/
def MakeConvTranspose (data weight : Expr)
    (strides padding dilation : List IndexExpr) (groups : Int)
    (channels : IndexExpr) (kernel_size : List IndexExpr)
    (data_layout kernel_layout out_layout : String)
    (output_padding : List IndexExpr) (out_dtype : DataType)
    (op_name : String) (reg : OpRegistry) : Option Expr :=
  let attrs : Conv2DTransposeAttrs :=
    { strides := strides, padding := padding, dilation := dilation,
      groups := groups, channels := channels, kernel_size := kernel_size,
      data_layout := data_layout, kernel_layout := kernel_layout,
      out_layout := out_layout, output_padding := output_padding,
      out_dtype := out_dtype }
  (Op.Get reg op_name).map fun op =>
    Expr.call op [data, weight] (AttrsData.conv2dTranspose attrs) []

/-- `MakeDeformableConv` (lines 157-178): three inputs
`{data, offset, weight}` in that order, with the extra
`deformable_groups` field and plain-`int` `channels`. -/
def MakeDeformableConv (data offset weight : Expr)
    (strides padding dilation : List IndexExpr)
    (deformable_groups groups channels : Int)
    (kernel_size : List IndexExpr)
    (data_layout kernel_layout out_layout : String) (out_dtype : DataType)
    (op_name : String) (reg : OpRegistry) : Option Expr :=
  let attrs : DeformableConv2DAttrs :=
    { strides := strides, padding := padding, dilation := dilation,
      deformable_groups := deformable_groups, groups := groups,
      channels := channels, kernel_size := kernel_size,
      data_layout := data_layout, kernel_layout := kernel_layout,
      out_layout := out_layout, out_dtype := out_dtype }
  (Op.Get reg op_name).map fun op =>
    Expr.call op [data, offset, weight] (AttrsData.deformableConv2d attrs) []

/-- The fields a winograd attribute record shares with the plain
`Conv2DAttrs` record (everything except the extra `tile_size`). -/
def Conv2DWinogradAttrs.sharedFields (a : Conv2DWinogradAttrs) : Conv2DAttrs :=
  { strides := a.strides, padding := a.padding, dilation := a.dilation,
    groups := a.groups, channels := a.channels, kernel_size := a.kernel_size,
    data_layout := a.data_layout, kernel_layout := a.kernel_layout,
    out_layout := a.out_layout, out_dtype := a.out_dtype }

/-- The fields a transpose attribute record shares with the plain
`Conv2DAttrs` record (everything except the extra `output_padding`). -/
def Conv2DTransposeAttrs.sharedFields (a : Conv2DTransposeAttrs) : Conv2DAttrs :=
  { strides := a.strides, padding := a.padding, dilation := a.dilation,
    groups := a.groups, channels := a.channels, kernel_size := a.kernel_size,
    data_layout := a.data_layout, kernel_layout := a.kernel_layout,
    out_layout := a.out_layout, out_dtype := a.out_dtype }

/-- One builder invocation with all of its arguments: used to model a
sequence of construction calls against the shared read-only registry. -/
inductive Invocation where
  | conv (data weight : Expr) (strides padding dilation : List IndexExpr)
      (groups : Int) (channels : IndexExpr) (kernel_size : List IndexExpr)
      (data_layout kernel_layout out_layout : String) (out_dtype : DataType)
      (op_name : String)
  | fused (data weight1 bias1 weight2 bias2 : Expr)
      (strides_array padding_array dilation_array : List (List IndexExpr))
      (groups_array : List Integer) (channels_array : List IndexExpr)
      (kernel_size_array : List (List IndexExpr))
      (post_op_array data_layout_array kernel_layout_array out_layout_array : List String)
      (out_dtype : DataType) (op_name : String)
  | winograd (data weight : Expr) (tile_size : Int)
      (strides padding dilation : List IndexExpr) (groups : Int)
      (channels : IndexExpr) (kernel_size : List IndexExpr)
      (data_layout kernel_layout out_layout : String) (out_dtype : DataType)
      (op_name : String)
  | gemm (data weight : Expr) (strides padding dilation : List IndexExpr)
      (groups : Int) (channels : IndexExpr) (kernel_size : List IndexExpr)
      (data_layout kernel_layout out_layout : String) (out_dtype : DataType)
      (op_name : String)
  | transpose (data weight : Expr) (strides padding dilation : List IndexExpr)
      (groups : Int) (channels : IndexExpr) (kernel_size : List IndexExpr)
      (data_layout kernel_layout out_layout : String)
      (output_padding : List IndexExpr) (out_dtype : DataType)
      (op_name : String)
  | deformable (data offset weight : Expr)
      (strides padding dilation : List IndexExpr)
      (deformable_groups groups channels : Int)
      (kernel_size : List IndexExpr)
      (data_layout kernel_layout out_layout : String) (out_dtype : DataType)
      (op_name : String)

/-- Run one builder invocation against the registry. -/
def runInvocation (reg : OpRegistry) : Invocation → Option Expr
  | .conv d w s p dl g c ks dlay klay olay odt nm =>
      MakeConv d w s p dl g c ks dlay klay olay odt nm reg
  | .fused d w1 b1 w2 b2 sa pa da ga ca ksa poa dla kla ola odt nm =>
      MakeFusedConv2D d w1 b1 w2 b2 sa pa da ga ca ksa poa dla kla ola odt nm reg
  | .winograd d w t s p dl g c ks dlay klay olay odt nm =>
      MakeConvWinograd d w t s p dl g c ks dlay klay olay odt nm reg
  | .gemm d w s p dl g c ks dlay klay olay odt nm =>
      MakeConvGemm d w s p dl g c ks dlay klay olay odt nm reg
  | .transpose d w s p dl g c ks dlay klay olay opad odt nm =>
      MakeConvTranspose d w s p dl g c ks dlay klay olay opad odt nm reg
  | .deformable d off w s p dl dg g c ks dlay klay olay odt nm =>
      MakeDeformableConv d off w s p dl dg g c ks dlay klay olay odt nm reg

/-- Run a whole sequence of builder invocations, in order, against the
shared read-only registry, collecting each result. -/
def runAll (reg : OpRegistry) (invs : List Invocation) : List (Option Expr) :=
  invs.map (runInvocation reg)

/-- Claim C1: every variant builder binds exactly the positional inputs in
the variant's fixed order into the returned call node: `[data, weight]`
for the plain, winograd, gemm and transpose builders, `[data, offset,
weight]` (never `[data, weight, offset]`) for the deformable builder, and
`[data, weight1, bias1, weight2, bias2]` for the fused builder. -/
theorem c1_input_order_and_arity :
    (∀ d w s p dl g c ks dlay klay olay odt nm reg,
       (MakeConv d w s p dl g c ks dlay klay olay odt nm reg).map Expr.args =
         (Op.Get reg nm).map fun _ => [d, w]) ∧
    (∀ d w t s p dl g c ks dlay klay olay odt nm reg,
       (MakeConvWinograd d w t s p dl g c ks dlay klay olay odt nm reg).map Expr.args =
         (Op.Get reg nm).map fun _ => [d, w]) ∧
    (∀ d w s p dl g c ks dlay klay olay odt nm reg,
       (MakeConvGemm d w s p dl g c ks dlay klay olay odt nm reg).map Expr.args =
         (Op.Get reg nm).map fun _ => [d, w]) ∧
    (∀ d w s p dl g c ks dlay klay olay opad odt nm reg,
       (MakeConvTranspose d w s p dl g c ks dlay klay olay opad odt nm reg).map Expr.args =
         (Op.Get reg nm).map fun _ => [d, w]) ∧
    (∀ d off w s p dl dg g c ks dlay klay olay odt nm reg,
       (MakeDeformableConv d off w s p dl dg g c ks dlay klay olay odt nm reg).map Expr.args =
         (Op.Get reg nm).map fun _ => [d, off, w]) ∧
    (∀ d w1 b1 w2 b2 sa pa da ga ca ksa poa dla kla ola odt nm reg,
       (MakeFusedConv2D d w1 b1 w2 b2 sa pa da ga ca ksa poa dla kla ola odt nm reg).map
           Expr.args =
         (Op.Get reg nm).map fun _ => [d, w1, b1, w2, b2]) := by
  refine ⟨?_, ?_, ?_, ?_, ?_, ?_⟩ <;>
    (intros
     rename_i nm reg
     simp only [MakeConv, MakeConvWinograd, MakeConvGemm, MakeConvTranspose,
       MakeDeformableConv, MakeFusedConv2D]
     cases Op.Get reg nm <;> rfl)

/-- Claim C3: for every variant builder, an operator name on which the
registry lookup fails yields no call node, and the registry lookup is the
only point of failure: the builder returns `none` exactly when `Op.Get`
fails on the supplied name. -/
theorem c3_unknown_operator :
    (∀ d w s p dl g c ks dlay klay olay odt nm reg,
       MakeConv d w s p dl g c ks dlay klay olay odt nm reg = none ↔
         Op.Get reg nm = none) ∧
    (∀ d w t s p dl g c ks dlay klay olay odt nm reg,
       MakeConvWinograd d w t s p dl g c ks dlay klay olay odt nm reg = none ↔
         Op.Get reg nm = none) ∧
    (∀ d w s p dl g c ks dlay klay olay odt nm reg,
       MakeConvGemm d w s p dl g c ks dlay klay olay odt nm reg = none ↔
         Op.Get reg nm = none) ∧
    (∀ d w s p dl g c ks dlay klay olay opad odt nm reg,
       MakeConvTranspose d w s p dl g c ks dlay klay olay opad odt nm reg = none ↔
         Op.Get reg nm = none) ∧
    (∀ d off w s p dl dg g c ks dlay klay olay odt nm reg,
       MakeDeformableConv d off w s p dl dg g c ks dlay klay olay odt nm reg = none ↔
         Op.Get reg nm = none) ∧
    (∀ d w1 b1 w2 b2 sa pa da ga ca ksa poa dla kla ola odt nm reg,
       MakeFusedConv2D d w1 b1 w2 b2 sa pa da ga ca ksa poa dla kla ola odt nm reg = none ↔
         Op.Get reg nm = none) := by
  refine ⟨?_, ?_, ?_, ?_, ?_, ?_⟩ <;>
    (intros
     rename_i nm reg
     simp only [MakeConv, MakeConvWinograd, MakeConvGemm, MakeConvTranspose,
       MakeDeformableConv, MakeFusedConv2D]
     cases Op.Get reg nm <;> simp)

/-- Claim C9: for the same attribute record type (both builders
instantiate the plain `Conv2DAttrs` record) and identical inputs, the
plain builder `MakeConv` and the GEMM-lowered builder `MakeConvGemm`
return equal call nodes: they are extensionally equal. -/
theorem c9_conv_gemm_extensionally_equal :
    ∀ d w s p dl g c ks dlay klay olay odt nm reg,
      MakeConv d w s p dl g c ks dlay klay olay odt nm reg =
        MakeConvGemm d w s p dl g c ks dlay klay olay odt nm reg := by
  intros
  rfl

/-- Claim C10: every builder constructs the call node with an empty
type-argument list: whenever a call node is returned, its type-argument
sequence is `[]`. -/
theorem c10_empty_type_args :
    (∀ d w s p dl g c ks dlay klay olay odt nm reg,
       (MakeConv d w s p dl g c ks dlay klay olay odt nm reg).map Expr.type_args =
         (Op.Get reg nm).map fun _ => []) ∧
    (∀ d w t s p dl g c ks dlay klay olay odt nm reg,
       (MakeConvWinograd d w t s p dl g c ks dlay klay olay odt nm reg).map Expr.type_args =
         (Op.Get reg nm).map fun _ => []) ∧
    (∀ d w s p dl g c ks dlay klay olay odt nm reg,
       (MakeConvGemm d w s p dl g c ks dlay klay olay odt nm reg).map Expr.type_args =
         (Op.Get reg nm).map fun _ => []) ∧
    (∀ d w s p dl g c ks dlay klay olay opad odt nm reg,
       (MakeConvTranspose d w s p dl g c ks dlay klay olay opad odt nm reg).map
           Expr.type_args =
         (Op.Get reg nm).map fun _ => []) ∧
    (∀ d off w s p dl dg g c ks dlay klay olay odt nm reg,
       (MakeDeformableConv d off w s p dl dg g c ks dlay klay olay odt nm reg).map
           Expr.type_args =
         (Op.Get reg nm).map fun _ => []) ∧
    (∀ d w1 b1 w2 b2 sa pa da ga ca ksa poa dla kla ola odt nm reg,
       (MakeFusedConv2D d w1 b1 w2 b2 sa pa da ga ca ksa poa dla kla ola odt nm reg).map
           Expr.type_args =
         (Op.Get reg nm).map fun _ => []) := by
  refine ⟨?_, ?_, ?_, ?_, ?_, ?_⟩ <;>
    (intros
     rename_i nm reg
     simp only [MakeConv, MakeConvWinograd, MakeConvGemm, MakeConvTranspose,
       MakeDeformableConv, MakeFusedConv2D]
     cases Op.Get reg nm <;> rfl)

/-- Claim C2: for every variant builder, every attribute field value
supplied by the caller appears unchanged in the attribute record of the
returned call node (the record is exactly the one assembled from the
caller's values); in particular the plain builder applied to the concrete
scenario of the spec yields a call node referencing the `nn.conv2d`
descriptor with exactly two inputs and an attribute record equal to those
literals. -/
theorem c2_field_round_trip :
    (∀ d w s p dl g c ks dlay klay olay odt nm reg,
       (MakeConv d w s p dl g c ks dlay klay olay odt nm reg).bind Expr.attrsOf =
         (Op.Get reg nm).map fun _ => AttrsData.conv2d
           { strides := s, padding := p, dilation := dl, groups := g,
             channels := c, kernel_size := ks, data_layout := dlay,
             kernel_layout := klay, out_layout := olay, out_dtype := odt }) ∧
    (∀ d w t s p dl g c ks dlay klay olay odt nm reg,
       (MakeConvWinograd d w t s p dl g c ks dlay klay olay odt nm reg).bind Expr.attrsOf =
         (Op.Get reg nm).map fun _ => AttrsData.conv2dWinograd
           { tile_size := t, strides := s, padding := p, dilation := dl,
             groups := g, channels := c, kernel_size := ks, data_layout := dlay,
             kernel_layout := klay, out_layout := olay, out_dtype := odt }) ∧
    (∀ d w s p dl g c ks dlay klay olay odt nm reg,
       (MakeConvGemm d w s p dl g c ks dlay klay olay odt nm reg).bind Expr.attrsOf =
         (Op.Get reg nm).map fun _ => AttrsData.conv2d
           { strides := s, padding := p, dilation := dl, groups := g,
             channels := c, kernel_size := ks, data_layout := dlay,
             kernel_layout := klay, out_layout := olay, out_dtype := odt }) ∧
    (∀ d w s p dl g c ks dlay klay olay opad odt nm reg,
       (MakeConvTranspose d w s p dl g c ks dlay klay olay opad odt nm reg).bind
           Expr.attrsOf =
         (Op.Get reg nm).map fun _ => AttrsData.conv2dTranspose
           { strides := s, padding := p, dilation := dl, groups := g,
             channels := c, kernel_size := ks, data_layout := dlay,
             kernel_layout := klay, out_layout := olay, output_padding := opad,
             out_dtype := odt }) ∧
    (∀ d off w s p dl dg g c ks dlay klay olay odt nm reg,
       (MakeDeformableConv d off w s p dl dg g c ks dlay klay olay odt nm reg).bind
           Expr.attrsOf =
         (Op.Get reg nm).map fun _ => AttrsData.deformableConv2d
           { strides := s, padding := p, dilation := dl, deformable_groups := dg,
             groups := g, channels := c, kernel_size := ks, data_layout := dlay,
             kernel_layout := klay, out_layout := olay, out_dtype := odt }) ∧
    (∀ d w1 b1 w2 b2 sa pa da ga ca ksa poa dla kla ola odt nm reg,
       (MakeFusedConv2D d w1 b1 w2 b2 sa pa da ga ca ksa poa dla kla ola odt nm reg).bind
           Expr.attrsOf =
         (Op.Get reg nm).map fun _ => AttrsData.fusedConv2d
           { num_layers := 2, strides_array := sa, padding_array := pa,
             dilation_array := da, groups_array := ga, channels_array := ca,
             kernel_size_array := ksa, post_op_array := poa,
             data_layout_array := dla, kernel_layout_array := kla,
             out_layout_array := ola, out_dtype := odt }) ∧
    MakeConv (Expr.var "data") (Expr.var "weight") [1, 1] [0, 0, 0, 0] [1, 1] 1 64
        [3, 3] "NCHW" "OIHW" "" "float32" "nn.conv2d" ["nn.conv2d"] =
      some (Expr.call ⟨"nn.conv2d"⟩ [Expr.var "data", Expr.var "weight"]
        (AttrsData.conv2d
          { strides := [1, 1], padding := [0, 0, 0, 0], dilation := [1, 1],
            groups := 1, channels := 64, kernel_size := [3, 3],
            data_layout := "NCHW", kernel_layout := "OIHW", out_layout := "",
            out_dtype := "float32" }) []) := by
  refine ⟨?_, ?_, ?_, ?_, ?_, ?_, rfl⟩ <;>
    (intros
     rename_i nm reg
     simp only [MakeConv, MakeConvWinograd, MakeConvGemm, MakeConvTranspose,
       MakeDeformableConv, MakeFusedConv2D]
     cases Op.Get reg nm <;> rfl)

/-- Claim C4: the fused builder hard-wires `num_layers` to 2 for every
caller input (the attribute record it stores always has `num_layers = 2`
and the per-layer arrays exactly as supplied), and on the concrete
scenario with all per-layer sequences of length 2 the resulting record
has `num_layers = 2` and `strides_array` equal to the input. -/
theorem c4_fused_num_layers :
    (∀ d w1 b1 w2 b2 sa pa da ga ca ksa poa dla kla ola odt nm reg,
       (MakeFusedConv2D d w1 b1 w2 b2 sa pa da ga ca ksa poa dla kla ola odt nm reg).bind
           Expr.attrsOf =
         (Op.Get reg nm).map fun _ => AttrsData.fusedConv2d
           { num_layers := 2, strides_array := sa, padding_array := pa,
             dilation_array := da, groups_array := ga, channels_array := ca,
             kernel_size_array := ksa, post_op_array := poa,
             data_layout_array := dla, kernel_layout_array := kla,
             out_layout_array := ola, out_dtype := odt }) ∧
    (MakeFusedConv2D (Expr.var "data") (Expr.var "weight1") (Expr.var "bias1")
        (Expr.var "weight2") (Expr.var "bias2")
        [[1, 1], [1, 1]] [[0, 0, 0, 0], [0, 0, 0, 0]] [[1, 1], [1, 1]] [1, 1]
        [32, 64] [[3, 3], [1, 1]] ["relu", "relu"] ["NCHW", "NCHW"]
        ["OIHW", "OIHW"] ["", ""] "float32" "nn.fused_conv2d"
        ["nn.fused_conv2d"]).bind Expr.attrsOf =
      some (AttrsData.fusedConv2d
        { num_layers := 2, strides_array := [[1, 1], [1, 1]],
          padding_array := [[0, 0, 0, 0], [0, 0, 0, 0]],
          dilation_array := [[1, 1], [1, 1]], groups_array := [1, 1],
          channels_array := [32, 64], kernel_size_array := [[3, 3], [1, 1]],
          post_op_array := ["relu", "relu"],
          data_layout_array := ["NCHW", "NCHW"],
          kernel_layout_array := ["OIHW", "OIHW"], out_layout_array := ["", ""],
          out_dtype := "float32" }) := by
  refine ⟨?_, rfl⟩
  intros
  rename_i nm reg
  simp only [MakeFusedConv2D]
  cases Op.Get reg nm <;> rfl

/-- Claim C5: whenever the operator name is registered, every builder
succeeds and returns a call node, with no validation of the field values:
arbitrary (even contract-violating) strides, padding, or mismatched
per-layer sequence lengths in the fused builder are silently accepted. -/
theorem c5_no_validation_always_succeeds :
    (∀ d w s p dl g c ks dlay klay olay odt nm reg, nm ∈ reg →
       (MakeConv d w s p dl g c ks dlay klay olay odt nm reg).isSome = true) ∧
    (∀ d w t s p dl g c ks dlay klay olay odt nm reg, nm ∈ reg →
       (MakeConvWinograd d w t s p dl g c ks dlay klay olay odt nm reg).isSome = true) ∧
    (∀ d w s p dl g c ks dlay klay olay odt nm reg, nm ∈ reg →
       (MakeConvGemm d w s p dl g c ks dlay klay olay odt nm reg).isSome = true) ∧
    (∀ d w s p dl g c ks dlay klay olay opad odt nm reg, nm ∈ reg →
       (MakeConvTranspose d w s p dl g c ks dlay klay olay opad odt nm reg).isSome =
         true) ∧
    (∀ d off w s p dl dg g c ks dlay klay olay odt nm reg, nm ∈ reg →
       (MakeDeformableConv d off w s p dl dg g c ks dlay klay olay odt nm reg).isSome =
         true) ∧
    (∀ d w1 b1 w2 b2 sa pa da ga ca ksa poa dla kla ola odt nm reg, nm ∈ reg →
       (MakeFusedConv2D d w1 b1 w2 b2 sa pa da ga ca ksa poa dla kla ola odt nm
           reg).isSome = true) := by
  refine ⟨?_, ?_, ?_, ?_, ?_, ?_⟩ <;>
    (intros
     rename_i nm reg h
     simp [MakeConv, MakeConvWinograd, MakeConvGemm, MakeConvTranspose,
       MakeDeformableConv, MakeFusedConv2D, Op.Get, if_pos h])

/-- Claim C5 witness: each builder, applied at a registered name with
deliberately contract-violating field values (negative and oversized
strides, per-layer arrays of mismatched lengths), still returns a call
node. -/
theorem c5_no_validation_always_succeeds_witness :
    (MakeConv (Expr.var "d") (Expr.var "w") [-5, 999] [] [1] 0 64 [3]
        "bogus" "" "zzz" "not_a_dtype" "op" ["op"]).isSome = true ∧
    (MakeConvWinograd (Expr.var "d") (Expr.var "w") (-7) [-5, 999] [] [1] 0 64 [3]
        "bogus" "" "zzz" "not_a_dtype" "op" ["op"]).isSome = true ∧
    (MakeConvGemm (Expr.var "d") (Expr.var "w") [-5, 999] [] [1] 0 64 [3]
        "bogus" "" "zzz" "not_a_dtype" "op" ["op"]).isSome = true ∧
    (MakeConvTranspose (Expr.var "d") (Expr.var "w") [-5, 999] [] [1] 0 64 [3]
        "bogus" "" "zzz" [-1] "not_a_dtype" "op" ["op"]).isSome = true ∧
    (MakeDeformableConv (Expr.var "d") (Expr.var "off") (Expr.var "w") [-5, 999] [] [1]
        (-2) 0 64 [3] "bogus" "" "zzz" "not_a_dtype" "op" ["op"]).isSome = true ∧
    (MakeFusedConv2D (Expr.var "d") (Expr.var "w1") (Expr.var "b1") (Expr.var "w2")
        (Expr.var "b2") [[1, 1]] [] [[1, 1], [1, 1], [1, 1]] [1] [32, 64, 128, 256]
        [[3, 3]] [] ["NCHW"] [] [""] "float32" "op" ["op"]).isSome = true :=
  ⟨c5_no_validation_always_succeeds.1 (Expr.var "d") (Expr.var "w") [-5, 999] [] [1]
      0 64 [3] "bogus" "" "zzz" "not_a_dtype" "op" ["op"] (by decide),
   c5_no_validation_always_succeeds.2.1 (Expr.var "d") (Expr.var "w") (-7) [-5, 999]
      [] [1] 0 64 [3] "bogus" "" "zzz" "not_a_dtype" "op" ["op"] (by decide),
   c5_no_validation_always_succeeds.2.2.1 (Expr.var "d") (Expr.var "w") [-5, 999] []
      [1] 0 64 [3] "bogus" "" "zzz" "not_a_dtype" "op" ["op"] (by decide),
   c5_no_validation_always_succeeds.2.2.2.1 (Expr.var "d") (Expr.var "w") [-5, 999]
      [] [1] 0 64 [3] "bogus" "" "zzz" [-1] "not_a_dtype" "op" ["op"] (by decide),
   c5_no_validation_always_succeeds.2.2.2.2.1 (Expr.var "d") (Expr.var "off")
      (Expr.var "w") [-5, 999] [] [1] (-2) 0 64 [3] "bogus" "" "zzz" "not_a_dtype"
      "op" ["op"] (by decide),
   c5_no_validation_always_succeeds.2.2.2.2.2 (Expr.var "d") (Expr.var "w1")
      (Expr.var "b1") (Expr.var "w2") (Expr.var "b2") [[1, 1]] []
      [[1, 1], [1, 1], [1, 1]] [1] [32, 64, 128, 256] [[3, 3]] [] ["NCHW"] [] [""]
      "float32" "op" ["op"] (by decide)⟩

/-- Claim C7: the transposed-convolution builder satisfies the plain
builder's contract plus one extra `output_padding` field, stored in the
attribute record after the standard fields and before the output dtype,
with the input arity unchanged at exactly `[data, weight]`: for a
registered name it returns exactly that call node. -/
theorem c7_transpose_contract (d w : Expr) (s p dl : List IndexExpr) (g : Int)
    (c : IndexExpr) (ks : List IndexExpr) (dlay klay olay : String)
    (opad : List IndexExpr) (odt : DataType) (nm : String) (reg : OpRegistry)
    (h : nm ∈ reg) :
    MakeConvTranspose d w s p dl g c ks dlay klay olay opad odt nm reg =
      some (Expr.call ⟨nm⟩ [d, w]
        (AttrsData.conv2dTranspose
          { strides := s, padding := p, dilation := dl, groups := g,
            channels := c, kernel_size := ks, data_layout := dlay,
            kernel_layout := klay, out_layout := olay, output_padding := opad,
            out_dtype := odt }) []) := by
  simp [MakeConvTranspose, Op.Get, if_pos h]

/-- Claim C7 witness: the transpose builder at concrete inputs. -/
theorem c7_transpose_contract_witness :
    MakeConvTranspose (Expr.var "d") (Expr.var "w") [2, 2] [1, 1, 1, 1] [1, 1] 1 16
        [4, 4] "NCHW" "OIHW" "" [1, 1] "float32" "nn.conv2d_transpose"
        ["nn.conv2d_transpose"] =
      some (Expr.call ⟨"nn.conv2d_transpose"⟩ [Expr.var "d", Expr.var "w"]
        (AttrsData.conv2dTranspose
          { strides := [2, 2], padding := [1, 1, 1, 1], dilation := [1, 1],
            groups := 1, channels := 16, kernel_size := [4, 4],
            data_layout := "NCHW", kernel_layout := "OIHW", out_layout := "",
            output_padding := [1, 1], out_dtype := "float32" }) []) :=
  c7_transpose_contract (Expr.var "d") (Expr.var "w") [2, 2] [1, 1, 1, 1] [1, 1] 1 16
    [4, 4] "NCHW" "OIHW" "" [1, 1] "float32" "nn.conv2d_transpose"
    ["nn.conv2d_transpose"] (by decide)

/-- Claim C6: the winograd builder's extra `tile_size` field and the
transpose builder's extra `output_padding` field do not alter the fields
shared with the plain builder: for the same shared inputs, the shared
fields of the winograd and transpose attribute records equal the record
set by the plain builder. -/
theorem c6_extra_fields_do_not_alter_shared (d w : Expr) (t : Int)
    (s p dl : List IndexExpr) (g : Int) (c : IndexExpr) (ks : List IndexExpr)
    (dlay klay olay : String) (opad : List IndexExpr) (odt : DataType)
    (nm1 nm2 nm3 : String) (reg : OpRegistry) (ep ew et : Expr)
    (aP : Conv2DAttrs) (aW : Conv2DWinogradAttrs) (aT : Conv2DTransposeAttrs)
    (h1 : MakeConv d w s p dl g c ks dlay klay olay odt nm1 reg = some ep)
    (h2 : MakeConvWinograd d w t s p dl g c ks dlay klay olay odt nm2 reg = some ew)
    (h3 : MakeConvTranspose d w s p dl g c ks dlay klay olay opad odt nm3 reg = some et)
    (hp : ep.attrsOf = some (AttrsData.conv2d aP))
    (hw : ew.attrsOf = some (AttrsData.conv2dWinograd aW))
    (ht : et.attrsOf = some (AttrsData.conv2dTranspose aT)) :
    aW.sharedFields = aP ∧ aT.sharedFields = aP := by
  simp only [MakeConv, MakeConvWinograd, MakeConvTranspose,
    Option.map_eq_some'] at h1 h2 h3
  obtain ⟨op1, -, rfl⟩ := h1
  obtain ⟨op2, -, rfl⟩ := h2
  obtain ⟨op3, -, rfl⟩ := h3
  simp only [Expr.attrsOf, Option.some.injEq, AttrsData.conv2d.injEq,
    AttrsData.conv2dWinograd.injEq, AttrsData.conv2dTranspose.injEq] at hp hw ht
  subst hp
  subst hw
  subst ht
  exact ⟨rfl, rfl⟩

/-- Claim C6 witness: at concrete shared inputs, the winograd record's
shared fields and the transpose record's shared fields both equal the
plain builder's record. -/
theorem c6_extra_fields_do_not_alter_shared_witness :
    Conv2DWinogradAttrs.sharedFields
        { tile_size := 4, strides := [1], padding := [0], dilation := [1],
          groups := 1, channels := 8, kernel_size := [3], data_layout := "N",
          kernel_layout := "O", out_layout := "", out_dtype := "f32" } =
      ({ strides := [1], padding := [0], dilation := [1], groups := 1,
         channels := 8, kernel_size := [3], data_layout := "N",
         kernel_layout := "O", out_layout := "", out_dtype := "f32" } :
        Conv2DAttrs) ∧
    Conv2DTransposeAttrs.sharedFields
        { strides := [1], padding := [0], dilation := [1], groups := 1,
          channels := 8, kernel_size := [3], data_layout := "N",
          kernel_layout := "O", out_layout := "", output_padding := [0],
          out_dtype := "f32" } =
      ({ strides := [1], padding := [0], dilation := [1], groups := 1,
         channels := 8, kernel_size := [3], data_layout := "N",
         kernel_layout := "O", out_layout := "", out_dtype := "f32" } :
        Conv2DAttrs) :=
  c6_extra_fields_do_not_alter_shared (Expr.var "d") (Expr.var "w") 4 [1] [0] [1] 1 8
    [3] "N" "O" "" [0] "f32" "c" "c" "c" ["c"]
    (Expr.call ⟨"c"⟩ [Expr.var "d", Expr.var "w"]
      (AttrsData.conv2d
        { strides := [1], padding := [0], dilation := [1], groups := 1,
          channels := 8, kernel_size := [3], data_layout := "N",
          kernel_layout := "O", out_layout := "", out_dtype := "f32" }) [])
    (Expr.call ⟨"c"⟩ [Expr.var "d", Expr.var "w"]
      (AttrsData.conv2dWinograd
        { tile_size := 4, strides := [1], padding := [0], dilation := [1],
          groups := 1, channels := 8, kernel_size := [3], data_layout := "N",
          kernel_layout := "O", out_layout := "", out_dtype := "f32" }) [])
    (Expr.call ⟨"c"⟩ [Expr.var "d", Expr.var "w"]
      (AttrsData.conv2dTranspose
        { strides := [1], padding := [0], dilation := [1], groups := 1,
          channels := 8, kernel_size := [3], data_layout := "N",
          kernel_layout := "O", out_layout := "", output_padding := [0],
          out_dtype := "f32" }) [])
    { strides := [1], padding := [0], dilation := [1], groups := 1,
      channels := 8, kernel_size := [3], data_layout := "N",
      kernel_layout := "O", out_layout := "", out_dtype := "f32" }
    { tile_size := 4, strides := [1], padding := [0], dilation := [1],
      groups := 1, channels := 8, kernel_size := [3], data_layout := "N",
      kernel_layout := "O", out_layout := "", out_dtype := "f32" }
    { strides := [1], padding := [0], dilation := [1], groups := 1,
      channels := 8, kernel_size := [3], data_layout := "N",
      kernel_layout := "O", out_layout := "", output_padding := [0],
      out_dtype := "f32" }
    rfl rfl rfl rfl rfl rfl

/-- Claim C8: builders are deterministic and stateless with respect to
prior calls: in any sequence of invocations run against the same
read-only registry, equal invocation entries produce equal results (even
at different positions of the same sequence), and the result at a
position depends only on the invocation at that position, not on any
other invocation in the sequence. -/
theorem c8_deterministic_stateless :
    (∀ (reg : OpRegistry) (invs : List Invocation) (i j : Nat),
       invs[i]? = invs[j]? → (runAll reg invs)[i]? = (runAll reg invs)[j]?) ∧
    (∀ (reg : OpRegistry) (invs1 invs2 : List Invocation) (i : Nat),
       invs1[i]? = invs2[i]? →
         (runAll reg invs1)[i]? = (runAll reg invs2)[i]?) := by
  constructor
  · intro reg invs i j h
    simp only [runAll, List.getElem?_map, h]
  · intro reg invs1 invs2 i h
    simp only [runAll, List.getElem?_map, h]

/-- Claim C8 witness: two invocation sequences that agree at position 1
but differ at position 0 (different strides), run against the same
registry, give the same result at position 1; and within one sequence the
repeated invocation at positions 0 and 2 gives the same result. -/
theorem c8_deterministic_stateless_witness :
    (runAll ["c"]
        [Invocation.conv (Expr.var "d") (Expr.var "w") [1] [0] [1] 1 8 [3] "N" "O"
           "" "f32" "c",
         Invocation.conv (Expr.var "d2") (Expr.var "w2") [2] [0] [1] 1 8 [3] "N" "O"
           "" "f32" "c",
         Invocation.conv (Expr.var "d") (Expr.var "w") [1] [0] [1] 1 8 [3] "N" "O"
           "" "f32" "c"])[0]? =
      (runAll ["c"]
        [Invocation.conv (Expr.var "d") (Expr.var "w") [1] [0] [1] 1 8 [3] "N" "O"
           "" "f32" "c",
         Invocation.conv (Expr.var "d2") (Expr.var "w2") [2] [0] [1] 1 8 [3] "N" "O"
           "" "f32" "c",
         Invocation.conv (Expr.var "d") (Expr.var "w") [1] [0] [1] 1 8 [3] "N" "O"
           "" "f32" "c"])[2]? ∧
    (runAll ["c"]
        [Invocation.conv (Expr.var "d") (Expr.var "w") [9] [0] [1] 1 8 [3] "N" "O"
           "" "f32" "c",
         Invocation.conv (Expr.var "d2") (Expr.var "w2") [2] [0] [1] 1 8 [3] "N" "O"
           "" "f32" "c"])[1]? =
      (runAll ["c"]
        [Invocation.deformable (Expr.var "d") (Expr.var "off") (Expr.var "w") [1] [0]
           [1] 1 1 8 [3] "N" "O" "" "f32" "c",
         Invocation.conv (Expr.var "d2") (Expr.var "w2") [2] [0] [1] 1 8 [3] "N" "O"
           "" "f32" "c"])[1]? :=
  ⟨c8_deterministic_stateless.1 ["c"]
      [Invocation.conv (Expr.var "d") (Expr.var "w") [1] [0] [1] 1 8 [3] "N" "O" ""
         "f32" "c",
       Invocation.conv (Expr.var "d2") (Expr.var "w2") [2] [0] [1] 1 8 [3] "N" "O" ""
         "f32" "c",
       Invocation.conv (Expr.var "d") (Expr.var "w") [1] [0] [1] 1 8 [3] "N" "O" ""
         "f32" "c"] 0 2 rfl,
   c8_deterministic_stateless.2 ["c"]
      [Invocation.conv (Expr.var "d") (Expr.var "w") [9] [0] [1] 1 8 [3] "N" "O" ""
         "f32" "c",
       Invocation.conv (Expr.var "d2") (Expr.var "w2") [2] [0] [1] 1 8 [3] "N" "O" ""
         "f32" "c"]
      [Invocation.deformable (Expr.var "d") (Expr.var "off") (Expr.var "w") [1] [0]
         [1] 1 1 8 [3] "N" "O" "" "f32" "c",
       Invocation.conv (Expr.var "d2") (Expr.var "w2") [2] [0] [1] 1 8 [3] "N" "O" ""
         "f32" "c"] 1 rfl⟩

end ConvolutionMake
